import Mathlib

/-!
Verification of the theme-preference controller (`ThemeSelector` component),
the Firebase client initialization service, and the RSS feed endpoint of the
astro-firebase-starter repository, against its natural-language specification.

The browser environment (presence of `window`, the OS `prefers-color-scheme`
signal, `localStorage` behaviour) is modelled explicitly; the component code
is embedded statement by statement.
-/

/-- The host context visible to the theme controller: whether a `window`
object exists, whether `window.matchMedia("(prefers-color-scheme: dark)")`
currently matches, and whether a `localStorage.setItem` call would throw
(storage unavailable or quota exceeded). -/
structure Ctx where
  windowDefined : Bool
  prefersDark : Bool
  storageWriteFails : Bool
deriving DecidableEq, Repr

/-- The browser state touched by the component: the `data-theme` attribute on
`document.documentElement`, the `localStorage` entry under the key
`"theme-preference"` (`none` = absent), the React `preference` state
(`none` before hydration), and the dropdown `isOpen` flag. -/
structure ThemeState where
  dataTheme : Option String
  store : Option String
  preference : Option String
  isOpen : Bool
deriving DecidableEq, Repr

/-- `getSystemTheme()`: returns `"light"` when `typeof window === 'undefined'`,
otherwise `"dark"` iff the media query matches. -/
def getSystemTheme (c : Ctx) : String :=
  if c.windowDefined = false then "light"
  else if c.prefersDark then "dark" else "light"

/-- `getStoredPreference()`: returns `"system"` when `typeof window ===
'undefined'`; otherwise `localStorage.getItem('theme-preference') || 'system'`.
JavaScript `||` falls through to `"system"` only for `null` and the empty
string; any other stored string is returned unchanged (the `as
ThemePreference` cast performs no runtime normalization). -/
def getStoredPreference (c : Ctx) (store : Option String) : String :=
  if c.windowDefined = false then "system"
  else
    match store with
    | none => "system"
    | some s => if s = "" then "system" else s

/-- `applyTheme(newPreference)`: resolves the preference, writes the
`data-theme` attribute, then calls `localStorage.setItem`, then updates the
React state and closes the menu. There is no try/catch: when `setItem`
throws, the exception escapes and the remaining statements do not execute.
The returned `Bool` is `true` iff an exception escaped the call; the returned
state is the browser state at normal return or at the throw point. -/
def applyTheme (c : Ctx) (newPreference : String) (s : ThemeState) :
    ThemeState × Bool :=
  let theme := if newPreference = "system" then getSystemTheme c else newPreference
  let s1 := { s with dataTheme := some theme }
  if c.storageWriteFails then
    (s1, true)
  else
    ({ s1 with store := some newPreference, preference := some newPreference,
               isOpen := false }, false)

/-- The media-query `change` handler registered in the `useEffect`: re-reads
the stored preference at fire time and rewrites the attribute only when that
value is `"system"`. -/
def handleChange (c : Ctx) (s : ThemeState) : ThemeState :=
  let currentPref := getStoredPreference c s.store
  if currentPref = "system" then
    { s with dataTheme := some (getSystemTheme c) }
  else s

/-- A component lifetime: the context and browser state together with whether
the media-query listener is currently subscribed. -/
structure World where
  ctx : Ctx
  theme : ThemeState
  subscribed : Bool
deriving DecidableEq, Repr

/-- External events during a page view: an OS color-scheme change (carrying
the new `prefers-dark` value; the registered listener fires iff subscribed),
a user selection through `applyTheme`, and the `useEffect` cleanup that
removes the listener. -/
inductive Event where
  | osChange : Bool → Event
  | userApply : String → Event
  | unmount : Event
deriving DecidableEq, Repr

/-- One event step of the component lifetime. -/
def step (w : World) : Event → World
  | .osChange b =>
      let c := { w.ctx with prefersDark := b }
      if w.subscribed then { w with ctx := c, theme := handleChange c w.theme }
      else { w with ctx := c }
  | .userApply p => { w with theme := (applyTheme w.ctx p w.theme).1 }
  | .unmount => { w with subscribed := false }

/-- C1: evaluation of the code at the failing input. With `window` defined and
the string `"foo"` stored under `"theme-preference"`, `getStoredPreference`
returns the raw `"foo"` rather than normalizing it to `"system"`, although
the declared return type admits only the three recognized strings; absence
and the empty string are the only values that fall back to `"system"`. -/
theorem getStoredPreference_passes_unrecognized_through :
    getStoredPreference ⟨true, false, false⟩ (some "foo") = "foo" ∧
    getStoredPreference ⟨true, false, false⟩ none = "system" ∧
    getStoredPreference ⟨true, false, false⟩ (some "") = "system" :=
  ⟨rfl, rfl, rfl⟩

/-- C2: evaluation of the code at the failing input. When
`localStorage.setItem` throws inside `applyTheme "dark"`, the exception
escapes to the caller (second component `true`) and the in-memory cached
preference is left not updated (still `none`), because `setPreference` never
runs; only the attribute write before the throw took effect. -/
theorem applyTheme_storage_failure_throws :
    (applyTheme ⟨true, false, true⟩ "dark" ⟨none, none, none, true⟩).2 = true ∧
    (applyTheme ⟨true, false, true⟩ "dark" ⟨none, none, none, true⟩).1.preference
      = none ∧
    (applyTheme ⟨true, false, true⟩ "dark" ⟨none, none, none, true⟩).1.dataTheme
      = some "dark" :=
  ⟨rfl, rfl, rfl⟩

/-- C3: evaluation of the code at the failing input. With the unrecognized
string `"foo"` stored and the attribute at `"light"`, an OS change to dark
fires the subscribed handler but leaves the attribute at `"light"`: the
freshly read value `"foo"` fails the `=== 'system'` test, so the rewrite
that the data model (unrecognized value counts as System) prescribes does
not happen. -/
theorem osChange_unrecognized_stored_value_leaves_attribute_stale :
    (step ⟨⟨true, false, false⟩, ⟨some "light", some "foo", some "foo", false⟩,
        true⟩ (.osChange true)).theme.dataTheme = some "light" ∧
    getSystemTheme ⟨true, true, false⟩ = "dark" :=
  ⟨rfl, rfl⟩

/-- C4: for each of the three preference values, `applyTheme p` followed by
`getStoredPreference` returns exactly `p` (the preference, never the resolved
appearance), provided `window` exists and the storage write succeeds. -/
theorem applyTheme_then_getStoredPreference (c : Ctx) (s : ThemeState)
    (p : String) (hw : c.windowDefined = true) (hf : c.storageWriteFails = false)
    (hp : p = "light" ∨ p = "dark" ∨ p = "system") :
    getStoredPreference c ((applyTheme c p s).1).store = p := by
  rcases hp with h | h | h <;> subst h <;>
    simp [applyTheme, getStoredPreference, hw, hf]

/-- Witness for C4 at a concrete input. -/
theorem applyTheme_then_getStoredPreference_witness :
    getStoredPreference ⟨true, true, false⟩
      ((applyTheme ⟨true, true, false⟩ "dark" ⟨none, none, none, false⟩).1).store
      = "dark" :=
  applyTheme_then_getStoredPreference ⟨true, true, false⟩
    ⟨none, none, none, false⟩ "dark" rfl rfl (Or.inr (Or.inl rfl))

/-- C5: for each of the three preference values, after `applyTheme p` the
`data-theme` attribute holds the resolution of `p` — `p` itself for light and
dark, the OS resolution at call time for system — and in every case the
written value is literally `"light"` or `"dark"`, never `"system"`. -/
theorem applyTheme_attribute_resolved (c : Ctx) (s : ThemeState) (p : String)
    (hp : p = "light" ∨ p = "dark" ∨ p = "system") :
    (applyTheme c p s).1.dataTheme
        = some (if p = "system" then getSystemTheme c else p) ∧
    ((applyTheme c p s).1.dataTheme = some "light" ∨
      (applyTheme c p s).1.dataTheme = some "dark") := by
  constructor
  · cases hc : c.storageWriteFails <;> simp [applyTheme, hc]
  · rcases hp with h | h | h <;> subst h <;>
      cases hc : c.storageWriteFails <;>
      cases hw : c.windowDefined <;>
      cases hd : c.prefersDark <;>
      simp [applyTheme, getSystemTheme, hc, hw, hd]

/-- Witness for C5 at a concrete input. -/
theorem applyTheme_attribute_resolved_witness :
    (applyTheme ⟨true, true, false⟩ "system" ⟨none, none, none, false⟩).1.dataTheme
      = some "dark" := by
  have h := applyTheme_attribute_resolved ⟨true, true, false⟩
    ⟨none, none, none, false⟩ "system" (Or.inr (Or.inr rfl))
  simpa using h.1

/-- C6: with the context fixed, applying the same preference twice in
immediate succession ends in exactly the state (attribute, store, cached
preference, menu flag — and even the thrown-exception outcome) reached by
applying it once. -/
theorem applyTheme_idempotent (c : Ctx) (p : String) (s : ThemeState) :
    applyTheme c p ((applyTheme c p s).1) = applyTheme c p s := by
  cases s
  cases hc : c.storageWriteFails <;> simp [applyTheme, hc]

/-- C7: `getSystemTheme` returns `"dark"` exactly when a `window` exists and
the OS signal reports dark; in particular it returns `"light"` whenever the
query context is unavailable (`window` undefined) or the signal is light. -/
theorem getSystemTheme_spec (c : Ctx) :
    (getSystemTheme c = "dark" ↔ c.windowDefined = true ∧ c.prefersDark = true) ∧
    (getSystemTheme c = "light" ↔
      c.windowDefined = false ∨ c.prefersDark = false) := by
  cases c with
  | mk w d f => cases w <;> cases d <;> cases f <;> exact ⟨by decide, by decide⟩

/-- Helper: once the listener is unsubscribed, any sequence of OS
color-scheme changes leaves the browser theme state untouched. -/
lemma foldl_osChange_theme_eq (bs : List Bool) (w : World)
    (h : w.subscribed = false) :
    ((bs.map Event.osChange).foldl step w).theme = w.theme := by
  induction bs generalizing w with
  | nil => rfl
  | cons b bs ih =>
    have hstep : step w (Event.osChange b)
        = { w with ctx := { w.ctx with prefersDark := b } } := by
      simp [step, h]
    simp only [List.map_cons, List.foldl_cons, hstep]
    exact ih _ h

/-- C8: after the `useEffect` cleanup removes the listener, any sequence of
subsequent OS color-scheme change notifications leaves the document
appearance attribute (indeed the whole theme state) unchanged; and running
the cleanup is idempotent — in particular it is safe when no notification
ever fired. -/
theorem unmount_stops_attribute_mutation (w : World) (bs : List Bool) :
    ((bs.map Event.osChange).foldl step (step w Event.unmount)).theme.dataTheme
      = w.theme.dataTheme ∧
    step (step w Event.unmount) Event.unmount = step w Event.unmount := by
  constructor
  · have h := foldl_osChange_theme_eq bs (step w Event.unmount) rfl
    rw [h]
    rfl
  · rfl

/-- The result of `JSON.parse(configString) as FirebaseConfig`: each declared
property may be absent (`none`), since the cast performs no runtime check. -/
structure FirebaseConfig where
  apiKey : Option String
  authDomain : Option String
  projectId : Option String
  storageBucket : Option String
  messagingSenderId : Option String
  appId : Option String
  measurementId : Option String
deriving DecidableEq, Repr

/-- Property lookup `config[prop]` on a parsed config object. -/
def fieldOf (config : FirebaseConfig) : String → Option String
  | "apiKey" => config.apiKey
  | "authDomain" => config.authDomain
  | "projectId" => config.projectId
  | "storageBucket" => config.storageBucket
  | "messagingSenderId" => config.messagingSenderId
  | "appId" => config.appId
  | "measurementId" => config.measurementId
  | _ => none

/-- JavaScript falsiness of a possibly absent string: `undefined`/`null` and
the empty string are falsy. -/
def isFalsy : Option String → Bool
  | none => true
  | some s => s = ""

/-- The `requiredProps` list of `validateConfig`. -/
def requiredProps : List String :=
  ["apiKey", "authDomain", "projectId", "storageBucket", "messagingSenderId",
   "appId"]

/-- `validateConfig(config)`: the required properties for which
`!config[prop]` holds. -/
def validateConfig (config : FirebaseConfig) : List String :=
  requiredProps.filter (fun prop => isFalsy (fieldOf config prop))

/-- The environment of the Firebase module: the raw
`import.meta.env.PUBLIC_FIREBASE_CONFIG` value (`none` = unset) and the
outcome of `JSON.parse` on a given string (`none` = the parse throws). -/
structure FBEnv where
  configString : Option String
  parseJson : String → Option FirebaseConfig

/-- `getFirebaseConfig()`: returns `null` when the variable is unset or empty
(`!configString`), and `null` when `JSON.parse` throws (the catch branch);
otherwise the parsed object. -/
def getFirebaseConfig (env : FBEnv) : Option FirebaseConfig :=
  match env.configString with
  | none => none
  | some s => if s = "" then none else env.parseJson s

/-- The module-level and SDK-level state of the Firebase client service: the
cached `firebaseApp` singleton, the SDK app registry returned by `getApps()`
(app instances are numbered), the next fresh instance number, and how many
times `initializeApp` has been invoked. -/
structure FBState where
  firebaseApp : Option Nat
  apps : List Nat
  nextId : Nat
  initCalls : Nat
deriving DecidableEq, Repr

/-- `getFirebaseApp()`: returns the cached instance if present; else adopts
the already-registered SDK app if any; else parses and validates the config,
returning `null` on any failure, and only then calls `initializeApp`,
caching and returning the fresh instance. -/
def getFirebaseApp (env : FBEnv) (st : FBState) : Option Nat × FBState :=
  match st.firebaseApp with
  | some app => (some app, st)
  | none =>
    match st.apps with
    | a :: _ => (some a, { st with firebaseApp := some a })
    | [] =>
      match getFirebaseConfig env with
      | none => (none, st)
      | some config =>
        if (validateConfig config).length > 0 then (none, st)
        else
          let app := st.nextId
          (some app,
            { st with firebaseApp := some app, apps := st.apps ++ [app],
                      nextId := st.nextId + 1, initCalls := st.initCalls + 1 })

/-- `isFirebaseConfigured()`: config present, parses, and passes validation. -/
def isFirebaseConfigured (env : FBEnv) : Bool :=
  match getFirebaseConfig env with
  | none => false
  | some config => (validateConfig config).length = 0

/-- Helper: whenever `getFirebaseApp` returns an instance, that instance is
cached in the module-level singleton of the resulting state. -/
lemma getFirebaseApp_caches (env : FBEnv) (st : FBState) (a : Nat)
    (h : (getFirebaseApp env st).1 = some a) :
    (getFirebaseApp env st).2.firebaseApp = some a := by
  rcases hsf : st.firebaseApp with _ | app
  · rcases hsa : st.apps with _ | ⟨b, rest⟩
    · rcases hcfg : getFirebaseConfig env with _ | cfg
      · simp [getFirebaseApp, hsf, hsa, hcfg] at h
      · by_cases hv : (validateConfig cfg).length > 0
        · simp [getFirebaseApp, hsf, hsa, hcfg, hv] at h
        · simp [getFirebaseApp, hsf, hsa, hcfg, hv] at h ⊢
          exact h
    · simp [getFirebaseApp, hsf, hsa] at h ⊢
      exact h
  · simp [getFirebaseApp, hsf] at h ⊢
    exact h

/-- C9: `getFirebaseApp` is total (the embedding is a function, never an
exception); from a fresh module state it returns `none` when the
`PUBLIC_FIREBASE_CONFIG` variable is unset, when `JSON.parse` on it throws,
and when any of the six required fields is missing or empty; `initializeApp`
is invoked only after a config passed validation; and once an instance
exists — cached or just initialized — every later call returns that same
instance with the state unchanged (hence without re-initializing). -/
theorem getFirebaseApp_spec (env : FBEnv) (st : FBState) :
    (st.firebaseApp = none → st.apps = [] → env.configString = none →
        getFirebaseApp env st = (none, st)) ∧
    (st.firebaseApp = none → st.apps = [] → ∀ s, env.configString = some s →
        env.parseJson s = none → getFirebaseApp env st = (none, st)) ∧
    (st.firebaseApp = none → st.apps = [] → ∀ cfg prop,
        getFirebaseConfig env = some cfg → prop ∈ requiredProps →
        isFalsy (fieldOf cfg prop) = true → getFirebaseApp env st = (none, st)) ∧
    ((getFirebaseApp env st).2.initCalls ≠ st.initCalls →
        ∃ cfg, getFirebaseConfig env = some cfg ∧ validateConfig cfg = []) ∧
    (∀ a, st.firebaseApp = some a → getFirebaseApp env st = (some a, st)) ∧
    (∀ a st1, getFirebaseApp env st = (some a, st1) →
        getFirebaseApp env st1 = (some a, st1)) := by
  refine ⟨?_, ?_, ?_, ?_, ?_, ?_⟩
  · intro h1 h2 hc
    simp [getFirebaseApp, getFirebaseConfig, h1, h2, hc]
  · intro h1 h2 s hc hp
    by_cases hs : s = ""
    · simp [getFirebaseApp, getFirebaseConfig, h1, h2, hc, hs]
    · simp [getFirebaseApp, getFirebaseConfig, h1, h2, hc, hs, hp]
  · intro h1 h2 cfg prop hcfg hprop hfalsy
    have hmem : prop ∈ validateConfig cfg :=
      List.mem_filter.mpr ⟨hprop, hfalsy⟩
    have hlen : 0 < (validateConfig cfg).length :=
      List.length_pos.mpr (List.ne_nil_of_mem hmem)
    simp [getFirebaseApp, h1, h2, hcfg, hlen]
  · intro hne
    rcases hsf : st.firebaseApp with _ | app
    · rcases hsa : st.apps with _ | ⟨a, rest⟩
      · rcases hcfg : getFirebaseConfig env with _ | cfg
        · exact absurd (by simp [getFirebaseApp, hsf, hsa, hcfg]) hne
        · by_cases hv : (validateConfig cfg).length > 0
          · exact absurd (by simp [getFirebaseApp, hsf, hsa, hcfg, hv]) hne
          · refine ⟨cfg, rfl, ?_⟩
            have := Nat.eq_zero_of_not_pos hv
            exact List.length_eq_zero.mp this
      · exact absurd (by simp [getFirebaseApp, hsf, hsa]) hne
    · exact absurd (by simp [getFirebaseApp, hsf]) hne
  · intro a h
    simp [getFirebaseApp, h]
  · intro a st1 h
    have h1 : (getFirebaseApp env st).1 = some a := by rw [h]
    have h2 : (getFirebaseApp env st).2 = st1 := by rw [h]
    have hc := getFirebaseApp_caches env st a h1
    rw [h2] at hc
    simp [getFirebaseApp, hc]

/-- Witness for C9 at a concrete input: unset variable, fresh state. -/
theorem getFirebaseApp_spec_witness :
    getFirebaseApp { configString := none, parseJson := fun _ => none }
      ⟨none, [], 0, 0⟩ = (none, ⟨none, [], 0, 0⟩) :=
  (getFirebaseApp_spec { configString := none, parseJson := fun _ => none }
    ⟨none, [], 0, 0⟩).1 rfl rfl rfl

/-- A blog collection entry: the entry `id` (filename within the collection)
and the frontmatter fields used by the feed; `draft` is optional in the
schema. -/
structure Post where
  id : String
  title : String
  description : String
  author : String
  pubDate : Int
  tags : List String
  draft : Option Bool
deriving DecidableEq, Repr

/-- One RSS item as built by the endpoint. -/
structure FeedItem where
  title : String
  pubDate : Int
  description : String
  link : String
  author : String
  categories : List String
deriving DecidableEq, Repr

/-- `getSlug(id)`: `id.replace(/\.(md|mdx)$/, '')` — removes one trailing
`.md` or `.mdx` extension, case-sensitively; other ids are unchanged. -/
def getSlug (id : String) : String :=
  if id.endsWith ".mdx" then id.dropRight 4
  else if id.endsWith ".md" then id.dropRight 3
  else id

/-- The collection filter `({ data }) => !data.draft`: a post is excluded iff
its `draft` flag is set to `true` (absent and `false` are falsy). -/
def isDraft (post : Post) : Bool := post.draft == some true

/-- The item construction inside `GET`. `pubDate` stands for
`post.data.pubDate.valueOf()` (milliseconds). -/
def toItem (post : Post) : FeedItem :=
  { title := post.title, pubDate := post.pubDate,
    description := post.description,
    link := "/blog/" ++ getSlug post.id ++ "/",
    author := post.author, categories := post.tags }

/-- The ordering realized by the comparator `(a, b) => b.pubDate.valueOf() -
a.pubDate.valueOf()`: `a` may precede `b` iff `b`'s date is not later. -/
def pubDateDesc (a b : Post) : Prop := b.pubDate ≤ a.pubDate

instance : DecidableRel pubDateDesc :=
  fun a b => inferInstanceAs (Decidable (b.pubDate ≤ a.pubDate))

instance : IsTotal Post pubDateDesc := ⟨fun a b => le_total b.pubDate a.pubDate⟩

instance : IsTrans Post pubDateDesc := ⟨fun _ _ _ hab hbc => le_trans hbc hab⟩

/-- The items of the `GET` RSS endpoint for a given blog collection:
non-draft posts, sorted newest-first by the comparator (modelled by a stable
sort, as ECMAScript `Array.prototype.sort` guarantees), then mapped to
items. -/
def feedItems (blog : List Post) : List FeedItem :=
  (List.insertionSort pubDateDesc
    (blog.filter (fun post => !(isDraft post)))).map toItem

/-- C10: the RSS endpoint's items are exactly the non-draft posts of the
collection (as a permutation of their item forms), their publication dates
appear in descending (newest-first) order, and every item's link is
`"/blog/"` followed by the post id with a trailing `.md`/`.mdx` extension
removed, followed by `"/"`. -/
theorem rss_feed_spec (blog : List Post) :
    (feedItems blog).Perm
      ((blog.filter (fun post => !(isDraft post))).map toItem) ∧
    ((feedItems blog).map FeedItem.pubDate).Sorted (· ≥ ·) ∧
    (∀ it, it ∈ feedItems blog →
      ∃ post, post ∈ blog ∧ isDraft post = false ∧
        it.link = "/blog/" ++ getSlug post.id ++ "/") := by
  refine ⟨?_, ?_, ?_⟩
  · exact (List.perm_insertionSort pubDateDesc _).map toItem
  · have hs := List.sorted_insertionSort pubDateDesc
      (blog.filter (fun post => !(isDraft post)))
    simp only [feedItems, List.map_map, List.Sorted, List.pairwise_map]
    exact hs.imp (fun h => h)
  · intro it hit
    simp only [feedItems, List.mem_map] at hit
    obtain ⟨post, hmem, heq⟩ := hit
    have hmem2 : post ∈ blog.filter (fun post => !(isDraft post)) :=
      (List.perm_insertionSort pubDateDesc _).mem_iff.mp hmem
    obtain ⟨hblog, hdraft⟩ := List.mem_filter.mp hmem2
    refine ⟨post, hblog, ?_, ?_⟩
    · simpa using hdraft
    · rw [← heq]
      rfl

/-- Witness for C10 at a concrete collection: one regular `.md` post, one
draft, one `.mdx` post. -/
theorem rss_feed_spec_witness :
    ∃ post,
      post ∈ [(⟨"getting-started.md", "Getting Started", "d1", "Admin", 5,
                 ["guide"], none⟩ : Post),
              ⟨"secret.md", "Secret", "d2", "Admin", 9, [], some true⟩,
              ⟨"hello.mdx", "Hello", "d3", "Admin", 7, [], some false⟩] ∧
      isDraft post = false ∧
      (toItem ⟨"hello.mdx", "Hello", "d3", "Admin", 7, [], some false⟩).link
        = "/blog/" ++ getSlug post.id ++ "/" :=
  (rss_feed_spec [⟨"getting-started.md", "Getting Started", "d1", "Admin", 5,
                    ["guide"], none⟩,
                  ⟨"secret.md", "Secret", "d2", "Admin", 9, [], some true⟩,
                  ⟨"hello.mdx", "Hello", "d3", "Admin", 7, [], some false⟩]).2.2
    (toItem ⟨"hello.mdx", "Hello", "d3", "Admin", 7, [], some false⟩)
    (by simp [feedItems, List.insertionSort, List.orderedInsert, isDraft,
              pubDateDesc])
